import Mathlib

/-!
Verification of the Module Loader subsystem
(`src/wave/core/moduleloader/module_loader.{hpp,cpp}`).

The loader is embedded shallowly:

* `ModuleInfo`, `ModuleResult`, `ModuleEventType` mirror the structs and
  enums of `module_loader.hpp`.  The OS-level `libraryHandle` (`void*`) is
  modelled as `Option String` holding the path with which the library was
  opened (`none` = `nullptr`); the `instance` pointer (`ILauncherModule*`)
  is modelled as `Option Module` (`none` = `nullptr`), where `Module`
  records the name and version that the instance reports.
* The behaviour of the world across the dynamic-linking boundary
  (`dlopen` / `dlsym` / `dlclose`, the factory and destructor symbols, the
  module's own `initialize` / `shutdown`) is a parameter `Env`: for every
  path, an `LibBehavior` saying which of those calls succeed, which fault,
  and what module the factory produces.  Exceptions thrown by module code
  (`catch (std::exception&)` vs `catch (...)` in the source) are the two
  constructors of `CppFault`.
* `LoaderState` carries `CppLoadedModules` (the `std::map` keyed by module
  name, kept as a key-sorted association list), the trace of
  `broadcastEvent` invocations, and the trace of calls that cross the
  library boundary.  `broadcastEvent`'s own fan-out over the subscribed
  callbacks is modelled separately (`CBState` / `broadcastToCallbacks`),
  since the loader functions only *feed* it events.

The POSIX (`#else`) branches of the source are embedded; the `_WIN32`
branches differ only in the OS primitive used and in message text.
-/

namespace Wave
namespace ModuleLoader

/-- What a module instance reports (`getName()` / `getVersion()`). -/
structure Module where
  name : String
  version : String
deriving DecidableEq, Repr

/-- A C++ exception escaping module-supplied code: either a
`std::exception` with a `what()` string, or an unknown exception
(the `catch (...)` branch of the source). -/
inductive CppFault where
  | ex (what : String)
  | unknown
deriving DecidableEq, Repr

/-- Result of invoking the factory symbol `create_module_instance`:
it throws, returns `nullptr`, or returns an instance. -/
inductive CreateOutcome where
  | fault (f : CppFault)
  | ret (m : Option Module)
deriving DecidableEq, Repr

/-- Behaviour of the world for one library path: which boundary calls
succeed, which fault, and what the factory produces. -/
structure LibBehavior where
  openOk : Bool
  dlerrorOpen : String
  hasCreate : Bool
  dlsymCreateErr : Option String
  hasDestroy : Bool
  createOutcome : CreateOutcome
  initFault : Option CppFault
  shutdownFault : Option CppFault
  destroyFault : Option CppFault
  closeOk : Bool
  dlerrorClose : String
deriving DecidableEq

/-- The environment: per-path behaviour of the dynamic-linking boundary. -/
def Env : Type := String → LibBehavior

/-- `struct ModuleInfo` of `module_loader.hpp`.  `libraryHandle` holds the
path the handle was opened from (`none` = `nullptr`); `instance` holds the
module object (`none` = `nullptr`). -/
structure ModuleInfo where
  name : String
  version : String
  path : String
  libraryHandle : Option String
  «instance» : Option Module
deriving DecidableEq, Repr

/-- `ModuleInfo()` default constructor: empty strings, null pointers. -/
def ModuleInfo.mk0 : ModuleInfo :=
  { name := "", version := "", path := "", libraryHandle := none, «instance» := none }

/-- `ModuleResult::Status`. -/
inductive Status where
  | Success
  | NotFound
  | Error
deriving DecidableEq, Repr

/-- `struct ModuleResult` (the `data` field is `std::nullopt` on every
path of `module_loader.cpp` and is omitted). -/
structure ModuleResult where
  status : Status
  message : String
  module : Option ModuleInfo
deriving DecidableEq, Repr

/-- `enum class ModuleEventType`. -/
inductive ModuleEventType where
  | Loaded
  | Unloaded
  | Reloaded
  | ErrorLoading
  | ErrorUnloading
deriving DecidableEq, Repr

/-- One invocation of `broadcastEvent(type, info, message)`. -/
structure Event where
  type : ModuleEventType
  info : ModuleInfo
  message : String
deriving DecidableEq, Repr

/-- A call crossing the dynamic-library boundary, recorded in order. -/
inductive SysCall where
  | dlopen (path : String)
  | dlsymCreate (path : String)
  | dlsymDestroy (path : String)
  | callCreate (path : String)
  | callInitialize (path : String)
  | callShutdown (name : String)
  | callDestroy (path : String)
  | dlclose (path : String)
deriving DecidableEq, Repr

/-- The loader's mutable state: `CppLoadedModules` (a `std::map` keyed by
module name, kept here as a key-sorted association list), the trace of
events handed to `broadcastEvent`, and the trace of boundary calls. -/
structure LoaderState where
  loadedModules : List (String × ModuleInfo)
  events : List Event
  calls : List SysCall
deriving DecidableEq, Repr

/-- Freshly constructed loader: empty registry, no events, no calls. -/
def initState : LoaderState := { loadedModules := [], events := [], calls := [] }

/-- Record one `broadcastEvent` invocation. -/
def emit (st : LoaderState) (t : ModuleEventType) (info : ModuleInfo) (msg : String) :
    LoaderState :=
  { st with events := st.events ++ [⟨t, info, msg⟩] }

/-- Record one boundary call. -/
def scall (st : LoaderState) (c : SysCall) : LoaderState :=
  { st with calls := st.calls ++ [c] }

/-! ### The registry as a key-sorted association list

`std::map<std::string, ModuleInfo>` iterates in key order; the list is
kept sorted by key so iteration order matches the source. -/

/-- `CppLoadedModules[k] = v` (`std::map::operator[]` + assignment):
insert, keeping the list sorted by key; replaces an existing entry. -/
def mapInsert (k : String) (v : ModuleInfo) :
    List (String × ModuleInfo) → List (String × ModuleInfo)
  | [] => [(k, v)]
  | (k', v') :: rest =>
    if k < k' then (k, v) :: (k', v') :: rest
    else if k = k' then (k, v) :: rest
    else (k', v') :: mapInsert k v rest

/-- `CppLoadedModules.erase(k)`. -/
def eraseKey (k : String) : List (String × ModuleInfo) → List (String × ModuleInfo)
  | [] => []
  | (k', v') :: rest => if k = k' then rest else (k', v') :: eraseKey k rest

/-- `CppLoadedModules.find(k)` / `count(k)` (as an `Option`). -/
def lookupName (k : String) : List (String × ModuleInfo) → Option ModuleInfo
  | [] => none
  | (k', v') :: rest => if k = k' then some v' else lookupName k rest

/-- The scan `for (pair : CppLoadedModules) if (pair.second.path == p)`
at the top of `loadModule`. -/
def findByPath (p : String) : List (String × ModuleInfo) → Option ModuleInfo
  | [] => none
  | (_, v) :: rest => if v.path = p then some v else findByPath p rest

/-- The names (map keys) of a registry. -/
def registryKeys (l : List (String × ModuleInfo)) : List String := l.map Prod.fst

/-- The source paths of a registry's descriptors. -/
def registryPaths (l : List (String × ModuleInfo)) : List String :=
  l.map fun kv => kv.2.path

/-- The Registry uniqueness invariant: no two descriptors share a name,
no two share a source path. -/
def Uniq (l : List (String × ModuleInfo)) : Prop :=
  (registryKeys l).Nodup ∧ (registryPaths l).Nodup

instance (l : List (String × ModuleInfo)) : Decidable (Uniq l) := by
  unfold Uniq; infer_instance

/-! ### `ModuleLoaderSystem::loadModule` -/

/-- `ModuleLoaderSystem::loadModule(modulePath)` (`module_loader.cpp`
lines 33–194, POSIX branches).  Returns the `ModuleResult` and the
successor state. -/
def loadModule (env : Env) (st : LoaderState) (modulePath : String) :
    ModuleResult × LoaderState :=
  match findByPath modulePath st.loadedModules with
  | some existing =>
    (⟨.Error, "Module from this path is already loaded: " ++ modulePath, some existing⟩, st)
  | none =>
    let b := env modulePath
    let st := scall st (.dlopen modulePath)
    if b.openOk = false then
      let errorMsg := "Failed to load library: " ++ modulePath ++
        " (Error: " ++ b.dlerrorOpen ++ ")"
      let errorInfo := { ModuleInfo.mk0 with path := modulePath }
      (⟨.Error, errorMsg, some errorInfo⟩, emit st .ErrorLoading errorInfo errorMsg)
    else
      let st := scall (scall st (.dlsymCreate modulePath)) (.dlsymDestroy modulePath)
      if b.hasCreate = false then
        let errorMsg := "Failed to find 'create_module_instance' in " ++ modulePath ++
          (match b.dlsymCreateErr with
           | some e => " (dlsym Error: " ++ e ++ ")"
           | none => "")
        let st := scall st (.dlclose modulePath)
        let errorInfo := { ModuleInfo.mk0 with path := modulePath }
        (⟨.Error, errorMsg, some errorInfo⟩, emit st .ErrorLoading errorInfo errorMsg)
      else
        let st := scall st (.callCreate modulePath)
        match b.createOutcome with
        | .fault f =>
          let st := scall st (.dlclose modulePath)
          let errorMsg :=
            match f with
            | .ex w => "create_module_instance threw an exception: " ++ w
            | .unknown => "create_module_instance threw an unknown exception."
          let errorInfo := { ModuleInfo.mk0 with path := modulePath }
          (⟨.Error, errorMsg, some errorInfo⟩, emit st .ErrorLoading errorInfo errorMsg)
        | .ret none =>
          let st := scall st (.dlclose modulePath)
          let errorMsg := "create_module_instance returned nullptr from " ++ modulePath
          let errorInfo := { ModuleInfo.mk0 with path := modulePath }
          (⟨.Error, errorMsg, some errorInfo⟩, emit st .ErrorLoading errorInfo errorMsg)
        | .ret (some m) =>
          let st := scall st (.callInitialize modulePath)
          match b.initFault with
          | some f =>
            let st := if b.hasDestroy then scall st (.callDestroy modulePath) else st
            let st := scall st (.dlclose modulePath)
            let errorMsg :=
              match f with
              | .ex w => "Module " ++ m.name ++ " initialize() failed: " ++ w
              | .unknown => "Module " ++ m.name ++ " initialize() failed with unknown exception."
            let errorInfo := { ModuleInfo.mk0 with path := modulePath, name := m.name }
            (⟨.Error, errorMsg, some errorInfo⟩, emit st .ErrorLoading errorInfo errorMsg)
          | none =>
            let moduleName := m.name
            match lookupName moduleName st.loadedModules with
            | some _ =>
              let st := if b.hasDestroy then scall st (.callDestroy modulePath) else st
              let st := scall st (.dlclose modulePath)
              let errorMsg := "Module with name '" ++ moduleName ++
                "' already loaded. Module names must be unique."
              let errorInfo := { ModuleInfo.mk0 with path := modulePath, name := moduleName }
              (⟨.Error, errorMsg, some errorInfo⟩, emit st .ErrorLoading errorInfo errorMsg)
            | none =>
              let info : ModuleInfo :=
                { name := moduleName, version := m.version, path := modulePath,
                  libraryHandle := some modulePath, «instance» := some m }
              let st := { st with loadedModules := mapInsert info.name info st.loadedModules }
              let st := emit st .Loaded info "Module loaded successfully."
              (⟨.Success, "Module loaded successfully.", some info⟩, st)

/-! ### `ModuleLoaderSystem::internalUnloadModule` -/

/-- The `instance->shutdown()` block of `internalUnloadModule`
(lines 209–226): faults are caught, reported via `ErrorUnloading`, and do
not abort the unload. -/
def shutdownStep (env : Env) (st : LoaderState) (info : ModuleInfo) (moduleName : String) :
    LoaderState :=
  match info.«instance» with
  | none => st
  | some _ =>
    let st := scall st (.callShutdown moduleName)
    match (env info.path).shutdownFault with
    | none => st
    | some (.ex w) =>
      emit st .ErrorUnloading info ("Exception during " ++ moduleName ++ "->shutdown(): " ++ w)
    | some .unknown =>
      emit st .ErrorUnloading info ("Unknown exception during " ++ moduleName ++ "->shutdown().")

/-- The destructor-symbol block of `internalUnloadModule` (lines
228–257): re-resolve `destroy_module_instance` from the still-open
library; if present and the instance is non-null, invoke it, catching and
reporting faults without aborting. -/
def destroyStep (env : Env) (st : LoaderState) (info : ModuleInfo) (moduleName : String) :
    LoaderState :=
  match info.libraryHandle with
  | none => st
  | some h =>
    let st := scall st (.dlsymDestroy h)
    if (env h).hasDestroy && info.«instance».isSome then
      let st := scall st (.callDestroy h)
      match (env h).destroyFault with
      | none => st
      | some (.ex w) =>
        emit st .ErrorUnloading info
          ("destroy_module_instance threw an exception for module " ++ moduleName ++ ": " ++ w)
      | some .unknown =>
        emit st .ErrorUnloading info
          ("destroy_module_instance threw an unknown exception for module " ++ moduleName ++ ".")
    else st

/-- The tail of `internalUnloadModule` after a successful (or skipped)
library close (lines 279–285): null the handle, erase the Registry entry,
broadcast `Unloaded` unless reloading, return success. -/
def finishUnload (st : LoaderState) (info : ModuleInfo) (moduleName : String)
    (isReloading : Bool) : ModuleResult × LoaderState :=
  let st := { st with loadedModules := eraseKey moduleName st.loadedModules }
  let st :=
    if isReloading then st
    else emit st .Unloaded info "Module unloaded successfully."
  (⟨.Success, "Module unloaded successfully.", some info⟩, st)

/-- `ModuleLoaderSystem::internalUnloadModule(moduleName, isReloading)`
(lines 197–286, POSIX branches). -/
def internalUnloadModule (env : Env) (st : LoaderState) (moduleName : String)
    (isReloading : Bool) : ModuleResult × LoaderState :=
  match lookupName moduleName st.loadedModules with
  | none =>
    let st :=
      if isReloading then st
      else emit st .ErrorUnloading { ModuleInfo.mk0 with name := moduleName }
        "Module not found for unloading."
    (⟨.NotFound, "Module not found: " ++ moduleName, none⟩, st)
  | some infoToUnload =>
    let st := shutdownStep env st infoToUnload moduleName
    let st := destroyStep env st infoToUnload moduleName
    let infoToUnload := { infoToUnload with «instance» := none }
    match infoToUnload.libraryHandle with
    | some h =>
      let st := scall st (.dlclose h)
      if (env h).closeOk then
        finishUnload st { infoToUnload with libraryHandle := none } moduleName isReloading
      else
        let errorMsg := "Failed to free library for module " ++ moduleName ++
          " (Error: " ++ (env h).dlerrorClose ++ ")"
        (⟨.Error, errorMsg, some infoToUnload⟩, emit st .ErrorUnloading infoToUnload errorMsg)
    | none =>
      finishUnload st infoToUnload moduleName isReloading

/-- `ModuleLoaderSystem::unloadModule(moduleName)` (lines 288–291). -/
def unloadModule (env : Env) (st : LoaderState) (moduleName : String) :
    ModuleResult × LoaderState :=
  internalUnloadModule env st moduleName false

/-- `ModuleLoaderSystem::reloadModule(moduleName)` (lines 293–380).
(`loadRes.module.value()` in the source is defined because a `Success`
result of `loadModule` always carries the descriptor; `getD` mirrors
that.) -/
def reloadModule (env : Env) (st : LoaderState) (moduleName : String) :
    ModuleResult × LoaderState :=
  match lookupName moduleName st.loadedModules with
  | none =>
    let errorInfo := { ModuleInfo.mk0 with name := moduleName }
    (⟨.NotFound, "Module not found for reload: " ++ moduleName, some errorInfo⟩, st)
  | some found =>
    let modulePath := found.path
    let r1 := internalUnloadModule env st moduleName true
    let unloadRes := r1.1
    let st1 := r1.2
    if unloadRes.status = .Success then
      let r2 := loadModule env st1 modulePath
      let loadRes := r2.1
      let st2 := r2.2
      if loadRes.status = .Success then
        let mi := loadRes.module.getD ModuleInfo.mk0
        let st3 := emit st2 .Reloaded mi "Module reloaded successfully."
        (⟨.Success, "Module reloaded successfully.", loadRes.module⟩, st3)
      else
        let info1 := { ModuleInfo.mk0 with name := moduleName, path := modulePath }
        let st3 := emit st2 .ErrorLoading info1
          ("Failed to load module during reload: " ++ loadRes.message)
        (⟨.Error, "Reload failed during load phase: " ++ loadRes.message, some info1⟩, st3)
    else
      let info0 := unloadRes.module.getD ModuleInfo.mk0
      let info1 := { info0 with name := moduleName, path := modulePath }
      let st2 := emit st1 .ErrorUnloading info1
        ("Failed to unload module during reload: " ++ unloadRes.message)
      (⟨.Error, "Reload failed during unload phase: " ++ unloadRes.message, some info1⟩, st2)

/-! ### Teardown (`ModuleLoaderSystem::~ModuleLoaderSystem`) -/

/-- The per-name loop of the destructor: internal unload (events
suppressed) on each name in turn, ignoring individual failures. -/
def teardownLoop (env : Env) : List String → LoaderState → LoaderState
  | [], st => st
  | n :: rest, st => teardownLoop env rest (internalUnloadModule env st n true).2

/-- `ModuleLoaderSystem::~ModuleLoaderSystem()` (lines 16–31): snapshot
the key set, run the suppressed-event internal unload on every name, then
`CppLoadedModules.clear()`. -/
def teardown (env : Env) (st : LoaderState) : LoaderState :=
  let names := registryKeys st.loadedModules
  let st := teardownLoop env names st
  { st with loadedModules := [] }

/-! ### Operation sequences from the empty loader -/

/-- One public operation on the loader, with the world behaviour in
effect during that call. -/
inductive Op where
  | load (env : Env) (path : String)
  | unload (env : Env) (name : String)
  | reload (env : Env) (name : String)

/-- Apply one operation, keeping the successor state. -/
def applyOp (st : LoaderState) : Op → LoaderState
  | .load env p => (loadModule env st p).2
  | .unload env n => (unloadModule env st n).2
  | .reload env n => (reloadModule env st n).2

/-- The state after a sequence of operations on a fresh loader. -/
def runOps (ops : List Op) : LoaderState :=
  ops.foldl applyOp initState

/-- Count of events of one type in a trace. -/
def countEvType (t : ModuleEventType) (evs : List Event) : Nat :=
  (evs.filter fun e => e.type = t).length

/-- The events an operation produced: the suffix the successor state
added to the predecessor's trace. -/
def producedEvents (old new : LoaderState) : List Event :=
  new.events.drop old.events.length

/-! ### The Event Notifier fan-out (`ModuleLoaderSystem::broadcastEvent`)

The loader functions above record the events they hand to
`broadcastEvent`; the fan-out itself (lines 397–415) is modelled here.
Callbacks are opaque ids; invoking a callback may rewrite the
subscription list (a callback may subscribe/unsubscribe during its own
invocation) and may throw.  `broadcastToCallbacks` is a total function:
a thrown `CppFault` is caught inside the loop and turned into a line on
`cerrLog` (`std::cerr` in the source), never propagated. -/

/-- State of the Event Notifier: current subscription list, the log of
callback invocations performed, and the `std::cerr` output. -/
structure CBState where
  callbacks : List Nat
  invoked : List Nat
  cerrLog : List String
deriving DecidableEq, Repr

/-- Behaviour of callback invocation: given the callback id and the
current subscription list, the subscription list it leaves behind and
the fault it throws, if any. -/
def CallbackBehavior : Type := Nat → List Nat → List Nat × Option CppFault

/-- The `catch` bodies of `broadcastEvent`: what is printed to
`std::cerr` for a fault escaping a callback. -/
def cerrLine : CppFault → String
  | .ex w => "Exception in ModuleEventCallback: " ++ w
  | .unknown => "Unknown exception in ModuleEventCallback."

/-- The `for (callback : callbacks_copy)` loop of `broadcastEvent`:
invoke each callback of the snapshot in order; a fault is caught and
logged, and iteration continues. -/
def broadcastLoop (behav : CallbackBehavior) : List Nat → CBState → CBState
  | [], s => s
  | c :: rest, s =>
    let r := behav c s.callbacks
    broadcastLoop behav rest
      { callbacks := r.1
        invoked := s.invoked ++ [c]
        cerrLog := s.cerrLog ++ (match r.2 with
          | none => []
          | some f => [cerrLine f]) }

/-- `ModuleLoaderSystem::broadcastEvent` (lines 397–415): copy the
current callback list, then iterate over the copy. -/
def broadcastToCallbacks (behav : CallbackBehavior) (s : CBState) : CBState :=
  let callbacksCopy := s.callbacks
  broadcastLoop behav callbacksCopy s

/-- `CppLoadedModules` entries whose descriptor has source path `p`. -/
def countByPath (p : String) (l : List (String × ModuleInfo)) : Nat :=
  (l.filter fun kv => kv.2.path = p).length

/-! ### Concrete environments and states used to instantiate the theorems -/

/-- A well-behaved world: every library opens, exports both symbols, its
factory yields a module named `Echo` version `1.0.0`, and every call
succeeds. -/
def envDefault : Env := fun _ =>
  { openOk := true, dlerrorOpen := "", hasCreate := true, dlsymCreateErr := none,
    hasDestroy := true, createOutcome := .ret (some ⟨"Echo", "1.0.0"⟩),
    initFault := none, shutdownFault := none, destroyFault := none,
    closeOk := true, dlerrorClose := "" }

/-- Like `envDefault`, except `dlclose` always fails. -/
def envCloseFail : Env := fun p =>
  { envDefault p with closeOk := false, dlerrorClose := "library busy" }

/-- The state after loading one module (`Echo` from `/x/echo.so`). -/
def stEcho : LoaderState := runOps [Op.load envDefault "/x/echo.so"]

/-! ### State-component lemmas -/

@[simp] theorem scall_loadedModules (st : LoaderState) (c : SysCall) :
    (scall st c).loadedModules = st.loadedModules := rfl

@[simp] theorem scall_events (st : LoaderState) (c : SysCall) :
    (scall st c).events = st.events := rfl

@[simp] theorem scall_calls (st : LoaderState) (c : SysCall) :
    (scall st c).calls = st.calls ++ [c] := rfl

@[simp] theorem emit_loadedModules (st : LoaderState) (t : ModuleEventType)
    (i : ModuleInfo) (m : String) : (emit st t i m).loadedModules = st.loadedModules := rfl

@[simp] theorem emit_events (st : LoaderState) (t : ModuleEventType)
    (i : ModuleInfo) (m : String) : (emit st t i m).events = st.events ++ [⟨t, i, m⟩] := rfl

@[simp] theorem emit_calls (st : LoaderState) (t : ModuleEventType)
    (i : ModuleInfo) (m : String) : (emit st t i m).calls = st.calls := rfl


/-! ### Registry lemmas -/

@[simp] theorem registryKeys_nil : registryKeys [] = [] := rfl

@[simp] theorem registryKeys_cons (kv : String × ModuleInfo)
    (l : List (String × ModuleInfo)) :
    registryKeys (kv :: l) = kv.1 :: registryKeys l := rfl

@[simp] theorem registryPaths_nil : registryPaths [] = [] := rfl

@[simp] theorem registryPaths_cons (kv : String × ModuleInfo)
    (l : List (String × ModuleInfo)) :
    registryPaths (kv :: l) = kv.2.path :: registryPaths l := rfl

theorem mem_registryKeys {n : String} {info : ModuleInfo}
    {l : List (String × ModuleInfo)} (h : (n, info) ∈ l) : n ∈ registryKeys l :=
  List.mem_map_of_mem Prod.fst h

theorem mem_registryPaths {n : String} {info : ModuleInfo}
    {l : List (String × ModuleInfo)} (h : (n, info) ∈ l) :
    info.path ∈ registryPaths l :=
  List.mem_map_of_mem (fun kv => kv.2.path) h

theorem lookupName_eq_none_iff (k : String) (l : List (String × ModuleInfo)) :
    lookupName k l = none ↔ k ∉ registryKeys l := by
  induction l with
  | nil => simp [lookupName]
  | cons kv rest ih =>
    obtain ⟨k', v'⟩ := kv
    by_cases h : k = k' <;> simp [lookupName, h, ih]

theorem findByPath_eq_none_iff (p : String) (l : List (String × ModuleInfo)) :
    findByPath p l = none ↔ p ∉ registryPaths l := by
  induction l with
  | nil => simp [findByPath]
  | cons kv rest ih =>
    obtain ⟨k', v'⟩ := kv
    by_cases h : v'.path = p
    · simp [findByPath, h]
    · have h' : ¬(p = v'.path) := fun he => h he.symm
      simp [findByPath, h, h', ih]

theorem mem_keys_mapInsert {a k : String} {v : ModuleInfo}
    {l : List (String × ModuleInfo)}
    (h : a ∈ registryKeys (mapInsert k v l)) : a = k ∨ a ∈ registryKeys l := by
  induction l with
  | nil => simpa [mapInsert] using h
  | cons kv rest ih =>
    obtain ⟨k', v'⟩ := kv
    by_cases h1 : k < k'
    · simp only [mapInsert, if_pos h1, registryKeys_cons, List.mem_cons] at h ⊢
      tauto
    · by_cases h2 : k = k'
      · simp only [mapInsert, if_neg h1, if_pos h2, registryKeys_cons, List.mem_cons] at h ⊢
        tauto
      · simp only [mapInsert, if_neg h1, if_neg h2, registryKeys_cons, List.mem_cons] at h ⊢
        rcases h with h | h
        · tauto
        · rcases ih h with h | h <;> tauto

theorem mem_paths_mapInsert {q k : String} {v : ModuleInfo}
    {l : List (String × ModuleInfo)}
    (h : q ∈ registryPaths (mapInsert k v l)) : q = v.path ∨ q ∈ registryPaths l := by
  induction l with
  | nil => simpa [mapInsert] using h
  | cons kv rest ih =>
    obtain ⟨k', v'⟩ := kv
    by_cases h1 : k < k'
    · simp only [mapInsert, if_pos h1, registryPaths_cons, List.mem_cons] at h ⊢
      tauto
    · by_cases h2 : k = k'
      · simp only [mapInsert, if_neg h1, if_pos h2, registryPaths_cons, List.mem_cons] at h ⊢
        tauto
      · simp only [mapInsert, if_neg h1, if_neg h2, registryPaths_cons, List.mem_cons] at h ⊢
        rcases h with h | h
        · tauto
        · rcases ih h with h | h <;> tauto

theorem nodup_keys_mapInsert {k : String} {v : ModuleInfo}
    {l : List (String × ModuleInfo)}
    (h : k ∉ registryKeys l) (hn : (registryKeys l).Nodup) :
    (registryKeys (mapInsert k v l)).Nodup := by
  induction l with
  | nil => simp [mapInsert]
  | cons kv rest ih =>
    obtain ⟨k', v'⟩ := kv
    simp only [registryKeys_cons, List.mem_cons, not_or] at h
    simp only [registryKeys_cons, List.nodup_cons] at hn
    by_cases h1 : k < k'
    · simp only [mapInsert, if_pos h1, registryKeys_cons, List.nodup_cons, List.mem_cons,
        not_or]
      exact ⟨⟨h.1, h.2⟩, hn.1, hn.2⟩
    · by_cases h2 : k = k'
      · exact absurd h2 h.1
      · simp only [mapInsert, if_neg h1, if_neg h2, registryKeys_cons, List.nodup_cons]
        refine ⟨fun hmem => ?_, ih h.2 hn.2⟩
        rcases mem_keys_mapInsert hmem with h3 | h3
        · exact h.1 h3.symm
        · exact hn.1 h3

theorem nodup_paths_mapInsert {k : String} {v : ModuleInfo}
    {l : List (String × ModuleInfo)}
    (hk : k ∉ registryKeys l) (h : v.path ∉ registryPaths l)
    (hn : (registryPaths l).Nodup) :
    (registryPaths (mapInsert k v l)).Nodup := by
  induction l with
  | nil => simp [mapInsert]
  | cons kv rest ih =>
    obtain ⟨k', v'⟩ := kv
    simp only [registryKeys_cons, List.mem_cons, not_or] at hk
    simp only [registryPaths_cons, List.mem_cons, not_or] at h
    simp only [registryPaths_cons, List.nodup_cons] at hn
    by_cases h1 : k < k'
    · simp only [mapInsert, if_pos h1, registryPaths_cons, List.nodup_cons, List.mem_cons,
        not_or]
      exact ⟨⟨h.1, h.2⟩, hn.1, hn.2⟩
    · by_cases h2 : k = k'
      · exact absurd h2 hk.1
      · simp only [mapInsert, if_neg h1, if_neg h2, registryPaths_cons, List.nodup_cons]
        refine ⟨fun hmem => ?_, ih hk.2 h.2 hn.2⟩
        rcases mem_paths_mapInsert hmem with h3 | h3
        · exact h.1 h3.symm
        · exact hn.1 h3

theorem eraseKey_sublist (k : String) (l : List (String × ModuleInfo)) :
    (eraseKey k l).Sublist l := by
  induction l with
  | nil => simp [eraseKey]
  | cons kv rest ih =>
    obtain ⟨k', v'⟩ := kv
    by_cases h : k = k'
    · simp only [eraseKey, if_pos h]
      exact (List.sublist_cons_self (k', v') rest)
    · simp only [eraseKey, if_neg h]
      exact ih.cons₂ (k', v')

theorem registryKeys_sublist {l₁ l₂ : List (String × ModuleInfo)}
    (h : l₁.Sublist l₂) : (registryKeys l₁).Sublist (registryKeys l₂) :=
  h.map Prod.fst

theorem registryPaths_sublist {l₁ l₂ : List (String × ModuleInfo)}
    (h : l₁.Sublist l₂) : (registryPaths l₁).Sublist (registryPaths l₂) := by
  unfold registryPaths
  exact h.map _

theorem uniq_eraseKey {k : String} {l : List (String × ModuleInfo)} (h : Uniq l) :
    Uniq (eraseKey k l) :=
  ⟨h.1.sublist (registryKeys_sublist (eraseKey_sublist k l)),
   h.2.sublist (registryPaths_sublist (eraseKey_sublist k l))⟩

theorem eraseKey_mapInsert {k : String} {v : ModuleInfo}
    {l : List (String × ModuleInfo)} (h : k ∉ registryKeys l) :
    eraseKey k (mapInsert k v l) = l := by
  induction l with
  | nil => simp [mapInsert, eraseKey]
  | cons kv rest ih =>
    obtain ⟨k', v'⟩ := kv
    simp only [registryKeys_cons, List.mem_cons, not_or] at h
    by_cases h1 : k < k'
    · simp only [mapInsert, if_pos h1]
      simp [eraseKey]
    · by_cases h2 : k = k'
      · exact absurd h2 h.1
      · simp only [mapInsert, if_neg h1, if_neg h2]
        simp only [eraseKey, if_neg h.1, ih h.2]

theorem lookupName_mapInsert_self (k : String) (v : ModuleInfo)
    (l : List (String × ModuleInfo)) :
    lookupName k (mapInsert k v l) = some v := by
  induction l with
  | nil => simp [mapInsert, lookupName]
  | cons kv rest ih =>
    obtain ⟨k', v'⟩ := kv
    by_cases h1 : k < k'
    · simp only [mapInsert, if_pos h1]
      simp [lookupName]
    · by_cases h2 : k = k'
      · simp only [mapInsert, if_neg h1, if_pos h2]
        simp [lookupName]
      · simp only [mapInsert, if_neg h1, if_neg h2]
        simp only [lookupName, if_neg h2]
        exact ih

theorem not_mem_keys_eraseKey {k : String} {l : List (String × ModuleInfo)}
    (hn : (registryKeys l).Nodup) : k ∉ registryKeys (eraseKey k l) := by
  induction l with
  | nil => simp [eraseKey]
  | cons kv rest ih =>
    obtain ⟨k', v'⟩ := kv
    simp only [registryKeys_cons, List.nodup_cons] at hn
    by_cases h : k = k'
    · simp only [eraseKey, if_pos h]
      rw [h]
      exact hn.1
    · simp only [eraseKey, if_neg h, registryKeys_cons, List.mem_cons, not_or]
      exact ⟨h, ih hn.2⟩

theorem lookupName_mem {k : String} {v : ModuleInfo} {l : List (String × ModuleInfo)}
    (h : lookupName k l = some v) : (k, v) ∈ l := by
  induction l with
  | nil => simp [lookupName] at h
  | cons kv rest ih =>
    obtain ⟨k', v'⟩ := kv
    by_cases h1 : k = k'
    · simp only [lookupName, if_pos h1, Option.some.injEq] at h
      simp [h1, h]
    · simp only [lookupName, if_neg h1] at h
      simp [ih h]

theorem findByPath_eraseKey_of_lookup {n : String} {info : ModuleInfo}
    {l : List (String × ModuleInfo)}
    (hp : (registryPaths l).Nodup) (h : lookupName n l = some info) :
    findByPath info.path (eraseKey n l) = none := by
  induction l with
  | nil => simp [lookupName] at h
  | cons kv rest ih =>
    obtain ⟨k', v'⟩ := kv
    simp only [registryPaths_cons, List.nodup_cons] at hp
    by_cases h1 : n = k'
    · simp only [lookupName, if_pos h1, Option.some.injEq] at h
      simp only [eraseKey, if_pos h1]
      rw [findByPath_eq_none_iff, ← h]
      exact hp.1
    · simp only [lookupName, if_neg h1] at h
      simp only [eraseKey, if_neg h1]
      unfold findByPath
      by_cases h2 : v'.path = info.path
      · exfalso
        have hm : (n, info) ∈ rest := lookupName_mem h
        have hpm : info.path ∈ registryPaths rest := mem_registryPaths hm
        rw [h2] at hp
        exact hp.1 hpm
      · simp only [if_neg h2]
        exact ih hp.2 h

/-! ### Phase lemmas for `internalUnloadModule` -/

theorem shutdownStep_loadedModules (env : Env) (st : LoaderState) (info : ModuleInfo)
    (n : String) : (shutdownStep env st info n).loadedModules = st.loadedModules := by
  unfold shutdownStep
  split
  · rfl
  · split <;> rfl

theorem destroyStep_loadedModules (env : Env) (st : LoaderState) (info : ModuleInfo)
    (n : String) : (destroyStep env st info n).loadedModules = st.loadedModules := by
  unfold destroyStep
  split
  · rfl
  · split
    · split <;> rfl
    · rfl

theorem shutdownStep_events_suffix (env : Env) (st : LoaderState) (info : ModuleInfo)
    (n : String) : ∃ evs, (shutdownStep env st info n).events = st.events ++ evs := by
  unfold shutdownStep
  split
  · exact ⟨[], by simp⟩
  · split
    · exact ⟨[], by simp⟩
    · exact ⟨_, rfl⟩
    · exact ⟨_, rfl⟩

theorem destroyStep_events_suffix (env : Env) (st : LoaderState) (info : ModuleInfo)
    (n : String) : ∃ evs, (destroyStep env st info n).events = st.events ++ evs := by
  unfold destroyStep
  split
  · exact ⟨[], by simp⟩
  · split
    · split
      · exact ⟨[], by simp⟩
      · exact ⟨_, rfl⟩
      · exact ⟨_, rfl⟩
    · exact ⟨[], by simp⟩

theorem finishUnload_loadedModules (st : LoaderState) (info : ModuleInfo) (n : String)
    (r : Bool) : (finishUnload st info n r).2.loadedModules = eraseKey n st.loadedModules := by
  unfold finishUnload
  split <;> rfl

/-! ### Preservation of the uniqueness invariant -/

@[simp] theorem ite_scall_loadedModules (c : Prop) [Decidable c] (st : LoaderState)
    (x : SysCall) : (if c then scall st x else st).loadedModules = st.loadedModules := by
  split <;> rfl

theorem uniq_loadModule {st : LoaderState} (env : Env) (p : String)
    (h : Uniq st.loadedModules) : Uniq (loadModule env st p).2.loadedModules := by
  unfold loadModule
  split
  · exact h
  · rename_i hpath
    dsimp only
    split
    · simpa using h
    · split
      · simpa using h
      · split
        · simpa using h
        · simpa using h
        · split
          · simpa using h
          · split
            · simpa using h
            · rename_i m _ hname
              simp only [emit_loadedModules, scall_loadedModules]
              refine ⟨?_, ?_⟩
              · exact nodup_keys_mapInsert
                  ((lookupName_eq_none_iff _ _).mp (by simpa using hname)) h.1
              · exact nodup_paths_mapInsert
                  ((lookupName_eq_none_iff _ _).mp (by simpa using hname))
                  ((findByPath_eq_none_iff _ _).mp hpath) h.2

theorem internalUnload_loadedModules (env : Env) (st : LoaderState) (n : String)
    (r : Bool) :
    (internalUnloadModule env st n r).2.loadedModules = st.loadedModules ∨
    (internalUnloadModule env st n r).2.loadedModules = eraseKey n st.loadedModules := by
  unfold internalUnloadModule
  split
  · left
    split <;> rfl
  · dsimp only
    split
    · split
      · right
        rw [finishUnload_loadedModules]
        simp [destroyStep_loadedModules, shutdownStep_loadedModules]
      · left
        simp [destroyStep_loadedModules, shutdownStep_loadedModules]
    · right
      rw [finishUnload_loadedModules]
      simp [destroyStep_loadedModules, shutdownStep_loadedModules]

theorem uniq_internalUnload {st : LoaderState} (env : Env) (n : String) (r : Bool)
    (h : Uniq st.loadedModules) :
    Uniq (internalUnloadModule env st n r).2.loadedModules := by
  rcases internalUnload_loadedModules env st n r with h1 | h1 <;> rw [h1]
  · exact h
  · exact uniq_eraseKey h

theorem uniq_reloadModule {st : LoaderState} (env : Env) (n : String)
    (h : Uniq st.loadedModules) : Uniq (reloadModule env st n).2.loadedModules := by
  unfold reloadModule
  split
  · exact h
  · dsimp only
    split
    · split
      · simp only [emit_loadedModules]
        exact uniq_loadModule env _ (uniq_internalUnload env n true h)
      · simp only [emit_loadedModules]
        exact uniq_loadModule env _ (uniq_internalUnload env n true h)
    · simp only [emit_loadedModules]
      exact uniq_internalUnload env n true h

theorem uniq_applyOp {st : LoaderState} (op : Op) (h : Uniq st.loadedModules) :
    Uniq (applyOp st op).loadedModules := by
  cases op with
  | load env p => exact uniq_loadModule env p h
  | unload env n => simpa [applyOp, unloadModule] using uniq_internalUnload env n false h
  | reload env n => exact uniq_reloadModule env n h

theorem uniq_foldl (ops : List Op) :
    ∀ st : LoaderState, Uniq st.loadedModules → Uniq (ops.foldl applyOp st).loadedModules := by
  induction ops with
  | nil =>
    intro st h
    simpa using h
  | cons op rest ih =>
    intro st h
    simpa [List.foldl_cons] using ih _ (uniq_applyOp op h)

theorem uniq_runOps (ops : List Op) : Uniq (runOps ops).loadedModules :=
  uniq_foldl ops initState ⟨by simp [initState], by simp [initState]⟩

/-! ### More helper lemmas -/

theorem lookupName_eraseKey_ne {m n : String} {l : List (String × ModuleInfo)}
    (h : m ≠ n) : lookupName n (eraseKey m l) = lookupName n l := by
  induction l with
  | nil => simp [eraseKey]
  | cons kv rest ih =>
    obtain ⟨k', v'⟩ := kv
    by_cases h1 : m = k'
    · subst h1
      have e1 : eraseKey m ((m, v') :: rest) = rest := by
        simp [eraseKey]
      rw [e1]
      have h2 : ¬(n = m) := fun he => h he.symm
      simp [lookupName, h2]
    · simp only [eraseKey, if_neg h1, lookupName]
      by_cases h2 : n = k'
      · simp [h2]
      · simp [h2, ih]

theorem countByPath_eq_zero {p : String} {l : List (String × ModuleInfo)}
    (h : p ∉ registryPaths l) : countByPath p l = 0 := by
  induction l with
  | nil => rfl
  | cons kv rest ih =>
    simp only [registryPaths_cons, List.mem_cons, not_or] at h
    have h1 : ¬(kv.2.path = p) := fun he => h.1 he.symm
    simp only [countByPath, List.filter_cons, h1]
    simpa [countByPath] using ih h.2

theorem countByPath_eq_one {p : String} {info : ModuleInfo}
    {l : List (String × ModuleInfo)}
    (hn : (registryPaths l).Nodup) (h : findByPath p l = some info) :
    countByPath p l = 1 := by
  induction l with
  | nil => simp [findByPath] at h
  | cons kv rest ih =>
    simp only [registryPaths_cons, List.nodup_cons] at hn
    by_cases h1 : kv.2.path = p
    · simp only [countByPath, List.filter_cons, h1]
      have h2 : p ∉ registryPaths rest := by
        rw [← h1]
        exact hn.1
      simpa [countByPath] using countByPath_eq_zero h2
    · rw [findByPath] at h
      rw [if_neg h1] at h
      simp only [countByPath, List.filter_cons, h1]
      simpa [countByPath] using ih hn.2 h

@[simp] theorem ite_scall_events (c : Prop) [Decidable c] (st : LoaderState)
    (x : SysCall) : (if c then scall st x else st).events = st.events := by
  split <;> rfl

theorem ite_scall_calls (c : Prop) [Decidable c] (st : LoaderState) (x : SysCall) :
    (if c then scall st x else st).calls =
      st.calls ++ (if c then [x] else []) := by
  split <;> simp

/-- Full characterisation of a successful `loadModule`. -/
theorem loadModule_success (env : Env) (st : LoaderState) (p : String) (m : Module)
    (hpath : findByPath p st.loadedModules = none)
    (hopen : (env p).openOk = true)
    (hcreate : (env p).hasCreate = true)
    (houtcome : (env p).createOutcome = .ret (some m))
    (hinit : (env p).initFault = none)
    (hname : lookupName m.name st.loadedModules = none) :
    loadModule env st p =
      (⟨.Success, "Module loaded successfully.",
          some ⟨m.name, m.version, p, some p, some m⟩⟩,
        { loadedModules := mapInsert m.name ⟨m.name, m.version, p, some p, some m⟩
            st.loadedModules,
          events := st.events ++ [⟨.Loaded, ⟨m.name, m.version, p, some p, some m⟩,
            "Module loaded successfully."⟩],
          calls := st.calls ++ [.dlopen p, .dlsymCreate p, .dlsymDestroy p,
            .callCreate p, .callInitialize p] }) := by
  unfold loadModule
  rw [hpath]
  dsimp only
  simp [hopen, hcreate, houtcome, hinit, hname, scall, emit]

theorem shutdownStep_events_noFault (env : Env) (st : LoaderState) (info : ModuleInfo)
    (n : String) (h : (env info.path).shutdownFault = none) :
    (shutdownStep env st info n).events = st.events := by
  unfold shutdownStep
  split
  · rfl
  · rw [h]
    rfl

theorem destroyStep_events_noFault (env : Env) (st : LoaderState) (info : ModuleInfo)
    (n : String) (hp : String) (hh : info.libraryHandle = some hp)
    (h : (env hp).destroyFault = none) :
    (destroyStep env st info n).events = st.events := by
  unfold destroyStep
  rw [hh]
  dsimp only
  split
  · rw [h]
    rfl
  · rfl

theorem finishUnload_result (st : LoaderState) (info : ModuleInfo) (n : String)
    (r : Bool) :
    (finishUnload st info n r).1 =
      ⟨.Success, "Module unloaded successfully.", some info⟩ := by
  unfold finishUnload
  split <;> rfl

theorem finishUnload_events_reloading (st : LoaderState) (info : ModuleInfo)
    (n : String) : (finishUnload st info n true).2.events = st.events := rfl

theorem internalUnload_success_parts (env : Env) (st : LoaderState) (n : String)
    (info : ModuleInfo) (hp : String) (r : Bool)
    (hl : lookupName n st.loadedModules = some info)
    (hh : info.libraryHandle = some hp)
    (hc : (env hp).closeOk = true) :
    (internalUnloadModule env st n r).1 =
      ⟨.Success, "Module unloaded successfully.",
        some ⟨info.name, info.version, info.path, none, none⟩⟩ ∧
    (internalUnloadModule env st n r).2.loadedModules = eraseKey n st.loadedModules := by
  unfold internalUnloadModule
  rw [hl]
  dsimp only
  rw [hh]
  dsimp only
  simp only [hc, if_true]
  refine ⟨?_, ?_⟩
  · rw [finishUnload_result]
  · rw [finishUnload_loadedModules]
    simp [destroyStep_loadedModules, shutdownStep_loadedModules]

theorem internalUnload_suppressed_events (env : Env) (st : LoaderState) (n : String)
    (info : ModuleInfo) (hp : String)
    (hl : lookupName n st.loadedModules = some info)
    (hh : info.libraryHandle = some hp)
    (hsf : (env info.path).shutdownFault = none)
    (hdf : (env hp).destroyFault = none)
    (hc : (env hp).closeOk = true) :
    (internalUnloadModule env st n true).2.events = st.events := by
  unfold internalUnloadModule
  rw [hl]
  dsimp only
  rw [hh]
  dsimp only
  simp only [hc, if_true]
  rw [finishUnload_events_reloading]
  simp only [scall_events]
  rw [destroyStep_events_noFault env _ info n hp hh hdf]
  rw [shutdownStep_events_noFault env st info n hsf]

theorem internalUnload_keeps_failed (env : Env) (st : LoaderState) (m : String)
    (r : Bool) (n : String) (info : ModuleInfo) (hp : String)
    (hl : lookupName n st.loadedModules = some info)
    (hh : info.libraryHandle = some hp)
    (hc : (env hp).closeOk = false) :
    lookupName n (internalUnloadModule env st m r).2.loadedModules = some info := by
  by_cases hmn : m = n
  · subst hmn
    unfold internalUnloadModule
    rw [hl]
    dsimp only
    rw [hh]
    dsimp only
    simp only [hc]
    simp [destroyStep_loadedModules, shutdownStep_loadedModules, hl]
  · rcases internalUnload_loadedModules env st m r with h1 | h1 <;> rw [h1]
    · exact hl
    · rw [lookupName_eraseKey_ne hmn]
      exact hl

/-! ### The claims -/

/-- C1: for every sequence of load, unload, and reload operations starting
from an empty Registry, the Registry never contains two descriptors with
the same name or two descriptors with the same sourcePath. -/
theorem C1_registry_uniqueness (ops : List Op) :
    (registryKeys (runOps ops).loadedModules).Nodup ∧
    (registryPaths (runOps ops).loadedModules).Nodup :=
  uniq_runOps ops

/-- C8: for every name `n` not present in the Registry, `unload(n)` returns
`NotFound`, emits an `ErrorUnloading` event (public, non-suppressed
variant), and does not mutate the Registry. -/
theorem C8_unload_missing_not_found (env : Env) (st : LoaderState) (n : String)
    (h : lookupName n st.loadedModules = none) :
    (unloadModule env st n).1.status = .NotFound ∧
    (unloadModule env st n).2.loadedModules = st.loadedModules ∧
    producedEvents st (unloadModule env st n).2 =
      [⟨.ErrorUnloading, { ModuleInfo.mk0 with name := n },
        "Module not found for unloading."⟩] := by
  unfold unloadModule internalUnloadModule
  rw [h]
  simp [producedEvents, List.drop_left, ModuleInfo.mk0]

/-- Witness for C8 at a concrete input. -/
theorem C8_witness :
    lookupName "never-loaded" initState.loadedModules = none ∧
    ((unloadModule envDefault initState "never-loaded").1.status = .NotFound ∧
     (unloadModule envDefault initState "never-loaded").2.loadedModules =
       initState.loadedModules ∧
     producedEvents initState (unloadModule envDefault initState "never-loaded").2 =
       [⟨.ErrorUnloading, { ModuleInfo.mk0 with name := "never-loaded" },
         "Module not found for unloading."⟩]) :=
  ⟨by decide, C8_unload_missing_not_found envDefault initState "never-loaded" (by decide)⟩

/-- C9: for every broadcast and every list of subscribed callbacks, a fault
raised by one callback is caught inside the broadcast (the model returns a
state, never a fault); every callback of the list is still invoked, in
order, even after a fault, and even if a callback mutates the subscription
list during its own invocation — the iterated list is the copy taken
before iteration began. -/
theorem C9_broadcast_runs_all_callbacks (behav : CallbackBehavior) (s : CBState) :
    (broadcastToCallbacks behav s).invoked = s.invoked ++ s.callbacks := by
  have loop : ∀ (l : List Nat) (t : CBState),
      (broadcastLoop behav l t).invoked = t.invoked ++ l := by
    intro l
    induction l with
    | nil =>
      intro t
      simp [broadcastLoop]
    | cons c rest ih =>
      intro t
      rw [broadcastLoop, ih]
      simp
  exact loop s.callbacks s

/-- C5: for every path `p` already present as the `sourcePath` of a
Registry descriptor (in any state reachable from the empty Registry), a
second `load(p)` fails with the already-loaded error, changes nothing (in
particular emits no event), and the Registry still contains exactly one
descriptor for that path. -/
theorem C5_collision_rejection (ops : List Op) (env : Env) (p : String)
    (info : ModuleInfo)
    (h : findByPath p (runOps ops).loadedModules = some info) :
    (loadModule env (runOps ops) p).1.status = .Error ∧
    (loadModule env (runOps ops) p).1.message =
      "Module from this path is already loaded: " ++ p ∧
    (loadModule env (runOps ops) p).2 = runOps ops ∧
    countByPath p (loadModule env (runOps ops) p).2.loadedModules = 1 := by
  have hu := uniq_runOps ops
  unfold loadModule
  rw [h]
  exact ⟨rfl, rfl, rfl, countByPath_eq_one hu.2 h⟩

/-- Witness for C5 at a concrete input. -/
theorem C5_witness :
    findByPath "/x/echo.so" (runOps [Op.load envDefault "/x/echo.so"]).loadedModules =
      some ⟨"Echo", "1.0.0", "/x/echo.so", some "/x/echo.so", some ⟨"Echo", "1.0.0"⟩⟩ ∧
    ((loadModule envDefault (runOps [Op.load envDefault "/x/echo.so"])
        "/x/echo.so").1.status = .Error ∧
     (loadModule envDefault (runOps [Op.load envDefault "/x/echo.so"])
        "/x/echo.so").1.message =
       "Module from this path is already loaded: " ++ "/x/echo.so" ∧
     (loadModule envDefault (runOps [Op.load envDefault "/x/echo.so"])
        "/x/echo.so").2 = runOps [Op.load envDefault "/x/echo.so"] ∧
     countByPath "/x/echo.so"
       (loadModule envDefault (runOps [Op.load envDefault "/x/echo.so"])
         "/x/echo.so").2.loadedModules = 1) :=
  ⟨by decide, C5_collision_rejection [Op.load envDefault "/x/echo.so"] envDefault
    "/x/echo.so" ⟨"Echo", "1.0.0", "/x/echo.so", some "/x/echo.so", some ⟨"Echo", "1.0.0"⟩⟩
    (by decide)⟩

/-- The public-variant tail of the unload: `Unloaded` is broadcast after
the erase. -/
theorem finishUnload_events_public (st : LoaderState) (info : ModuleInfo) (n : String) :
    (finishUnload st info n false).2.events =
      st.events ++ [⟨.Unloaded, info, "Module unloaded successfully."⟩] := rfl

/-- C2: a successful `load(p)` returning a descriptor named `n`, followed
immediately by `unload(n)` with the library close succeeding, returns
success and leaves the Registry exactly as it was before the load. -/
theorem C2_round_trip (env : Env) (st : LoaderState) (p : String) (m : Module)
    (hpath : findByPath p st.loadedModules = none)
    (hopen : (env p).openOk = true)
    (hcreate : (env p).hasCreate = true)
    (houtcome : (env p).createOutcome = .ret (some m))
    (hinit : (env p).initFault = none)
    (hname : lookupName m.name st.loadedModules = none)
    (hclose : (env p).closeOk = true) :
    (loadModule env st p).1.status = .Success ∧
    ((loadModule env st p).1.module.map ModuleInfo.name) = some m.name ∧
    (unloadModule env (loadModule env st p).2 m.name).1.status = .Success ∧
    (unloadModule env (loadModule env st p).2 m.name).2.loadedModules =
      st.loadedModules := by
  have hload := loadModule_success env st p m hpath hopen hcreate houtcome hinit hname
  have hl1 : lookupName m.name (loadModule env st p).2.loadedModules =
      some ⟨m.name, m.version, p, some p, some m⟩ := by
    rw [hload]
    exact lookupName_mapInsert_self _ _ _
  obtain ⟨hres, hreg⟩ := internalUnload_success_parts env (loadModule env st p).2 m.name
    ⟨m.name, m.version, p, some p, some m⟩ p false hl1 rfl hclose
  refine ⟨?_, ?_, ?_, ?_⟩
  · rw [hload]
  · rw [hload]
    rfl
  · unfold unloadModule
    rw [hres]
  · unfold unloadModule
    rw [hreg, hload]
    dsimp only
    exact eraseKey_mapInsert ((lookupName_eq_none_iff _ _).mp hname)

/-- Witness for C2 at a concrete input. -/
theorem C2_witness :
    (findByPath "/x/echo.so" initState.loadedModules = none ∧
     (envDefault "/x/echo.so").openOk = true ∧
     (envDefault "/x/echo.so").closeOk = true) ∧
    ((loadModule envDefault initState "/x/echo.so").1.status = .Success ∧
     ((loadModule envDefault initState "/x/echo.so").1.module.map ModuleInfo.name) =
       some (Module.mk "Echo" "1.0.0").name ∧
     (unloadModule envDefault (loadModule envDefault initState "/x/echo.so").2
        (Module.mk "Echo" "1.0.0").name).1.status = .Success ∧
     (unloadModule envDefault (loadModule envDefault initState "/x/echo.so").2
        (Module.mk "Echo" "1.0.0").name).2.loadedModules = initState.loadedModules) :=
  ⟨⟨by decide, by decide, by decide⟩,
   C2_round_trip envDefault initState "/x/echo.so" ⟨"Echo", "1.0.0"⟩
     (by decide) (by decide) (by decide) (by decide) (by decide) (by decide) (by decide)⟩

/-- C10: a successful `unload(n)` of a loaded module returns, and carries
in its `Unloaded` event, a descriptor snapshot whose `instance` and
`libraryHandle` are null while `name`, `version`, and `path` are those of
the descriptor that was removed. -/
theorem C10_unload_snapshot (env : Env) (st : LoaderState) (n : String)
    (info : ModuleInfo)
    (hl : lookupName n st.loadedModules = some info)
    (hs : (unloadModule env st n).1.status = .Success) :
    (unloadModule env st n).1.module =
      some ⟨info.name, info.version, info.path, none, none⟩ ∧
    (unloadModule env st n).2.events.getLast? =
      some ⟨.Unloaded, ⟨info.name, info.version, info.path, none, none⟩,
        "Module unloaded successfully."⟩ := by
  unfold unloadModule internalUnloadModule at hs ⊢
  rw [hl] at hs ⊢
  dsimp only at hs ⊢
  rcases hh : info.libraryHandle with _ | hp
  · dsimp only at hs ⊢
    constructor
    · rw [finishUnload_result]
    · rw [finishUnload_events_public, List.getLast?_append_cons]
      rfl
  · dsimp only
    by_cases hc : (env hp).closeOk = true
    · rw [if_pos hc]
      constructor
      · rw [finishUnload_result]
      · rw [finishUnload_events_public, List.getLast?_append_cons]
        rfl
    · rw [hh] at hs
      dsimp only at hs
      rw [if_neg hc] at hs
      dsimp only at hs
      exact absurd hs (by decide)

/-- C3: when the library close fails during `unload(name)`, the unload
returns `Error` (not `Success`), emits an `ErrorUnloading` event, and the
descriptor stays in the Registry, which is left unchanged. -/
theorem C3_close_failure_keeps_descriptor (env : Env) (st : LoaderState) (n : String)
    (info : ModuleInfo) (hp : String)
    (hl : lookupName n st.loadedModules = some info)
    (hh : info.libraryHandle = some hp)
    (hc : (env hp).closeOk = false) :
    (unloadModule env st n).1.status = .Error ∧
    (unloadModule env st n).1.status ≠ .Success ∧
    (unloadModule env st n).2.loadedModules = st.loadedModules ∧
    lookupName n (unloadModule env st n).2.loadedModules = some info ∧
    1 ≤ countEvType .ErrorUnloading (producedEvents st (unloadModule env st n).2) := by
  unfold unloadModule internalUnloadModule
  rw [hl]
  dsimp only
  rw [hh]
  dsimp only
  have hc' : ¬((env hp).closeOk = true) := by simp [hc]
  rw [if_neg hc']
  obtain ⟨evs1, he1⟩ := shutdownStep_events_suffix env st info n
  obtain ⟨evs2, he2⟩ := destroyStep_events_suffix env (shutdownStep env st info n) info n
  refine ⟨rfl, ?_, ?_, ?_, ?_⟩
  · intro hx
    simp at hx
  · simp [destroyStep_loadedModules, shutdownStep_loadedModules]
  · simp [destroyStep_loadedModules, shutdownStep_loadedModules, hl]
  · unfold producedEvents
    rw [emit_events, scall_events, he2, he1]
    rw [List.append_assoc, List.append_assoc]
    rw [List.drop_left]
    simp [countEvType, List.filter_append]
    omega

/-- Witness for C3 at a concrete input. -/
theorem C3_witness :
    (lookupName "Echo" stEcho.loadedModules =
       some ⟨"Echo", "1.0.0", "/x/echo.so", some "/x/echo.so", some ⟨"Echo", "1.0.0"⟩⟩ ∧
     (envCloseFail "/x/echo.so").closeOk = false) ∧
    ((unloadModule envCloseFail stEcho "Echo").1.status = .Error ∧
     (unloadModule envCloseFail stEcho "Echo").1.status ≠ .Success ∧
     (unloadModule envCloseFail stEcho "Echo").2.loadedModules = stEcho.loadedModules ∧
     lookupName "Echo" (unloadModule envCloseFail stEcho "Echo").2.loadedModules =
       some ⟨"Echo", "1.0.0", "/x/echo.so", some "/x/echo.so", some ⟨"Echo", "1.0.0"⟩⟩ ∧
     1 ≤ countEvType .ErrorUnloading
       (producedEvents stEcho (unloadModule envCloseFail stEcho "Echo").2)) :=
  ⟨⟨by decide, by decide⟩,
   C3_close_failure_keeps_descriptor envCloseFail stEcho "Echo"
     ⟨"Echo", "1.0.0", "/x/echo.so", some "/x/echo.so", some ⟨"Echo", "1.0.0"⟩⟩
     "/x/echo.so" (by decide) (by decide) (by decide)⟩

/-- C6: a `load(p)` whose created and initialised instance reports a name
already present in the Registry invokes the destructor symbol when it was
resolved, closes the library, emits exactly one `ErrorLoading` event,
returns an error, and leaves the Registry unchanged. -/
theorem C6_duplicate_name_rejected (env : Env) (st : LoaderState) (p : String)
    (m : Module) (old : ModuleInfo)
    (hpath : findByPath p st.loadedModules = none)
    (hopen : (env p).openOk = true)
    (hcreate : (env p).hasCreate = true)
    (houtcome : (env p).createOutcome = .ret (some m))
    (hinit : (env p).initFault = none)
    (hname : lookupName m.name st.loadedModules = some old) :
    (loadModule env st p).1.status = .Error ∧
    (loadModule env st p).2.loadedModules = st.loadedModules ∧
    producedEvents st (loadModule env st p).2 =
      [⟨.ErrorLoading, { ModuleInfo.mk0 with path := p, name := m.name },
        "Module with name '" ++ m.name ++ "' already loaded. Module names must be unique."⟩] ∧
    (loadModule env st p).2.calls =
      st.calls ++ ([.dlopen p, .dlsymCreate p, .dlsymDestroy p, .callCreate p,
        .callInitialize p] ++
        (if (env p).hasDestroy = true then [SysCall.callDestroy p] else []) ++
        [.dlclose p]) := by
  unfold loadModule
  rw [hpath]
  dsimp only
  by_cases hd : (env p).hasDestroy = true <;>
    simp [hopen, hcreate, houtcome, hinit, hname, hd, producedEvents, scall, emit,
      ModuleInfo.mk0, List.drop_left]

/-- Witness for C6 at a concrete input: a second library at a fresh path
whose module reports the name `Echo`, which is already registered. -/
theorem C6_witness :
    (findByPath "/x/copy.so" stEcho.loadedModules = none ∧
     lookupName (Module.mk "Echo" "1.0.0").name stEcho.loadedModules =
       some ⟨"Echo", "1.0.0", "/x/echo.so", some "/x/echo.so", some ⟨"Echo", "1.0.0"⟩⟩) ∧
    ((loadModule envDefault stEcho "/x/copy.so").1.status = .Error ∧
     (loadModule envDefault stEcho "/x/copy.so").2.loadedModules = stEcho.loadedModules ∧
     producedEvents stEcho (loadModule envDefault stEcho "/x/copy.so").2 =
       [⟨.ErrorLoading, ⟨(Module.mk "Echo" "1.0.0").name, "", "/x/copy.so", none, none⟩,
         "Module with name '" ++ (Module.mk "Echo" "1.0.0").name ++
           "' already loaded. Module names must be unique."⟩] ∧
     (loadModule envDefault stEcho "/x/copy.so").2.calls =
       stEcho.calls ++ ([.dlopen "/x/copy.so", .dlsymCreate "/x/copy.so",
         .dlsymDestroy "/x/copy.so", .callCreate "/x/copy.so",
         .callInitialize "/x/copy.so"] ++
         (if (envDefault "/x/copy.so").hasDestroy = true
           then [SysCall.callDestroy "/x/copy.so"] else []) ++
         [.dlclose "/x/copy.so"])) :=
  ⟨⟨by decide, by decide⟩,
   C6_duplicate_name_rejected envDefault stEcho "/x/copy.so" ⟨"Echo", "1.0.0"⟩
     ⟨"Echo", "1.0.0", "/x/echo.so", some "/x/echo.so", some ⟨"Echo", "1.0.0"⟩⟩
     (by decide) (by decide) (by decide) (by decide) (by decide) (by decide)⟩

/-- C4: `reload(n)` on a present module (with its unload and re-load both
succeeding without faults) returns success with a descriptor named `n`,
and the events it produces are exactly one `Loaded` followed by one
`Reloaded`, with zero `Unloaded` events. -/
theorem C4_reload_identity (env : Env) (st : LoaderState) (n : String)
    (info : ModuleInfo) (m : Module)
    (hu : Uniq st.loadedModules)
    (hl : lookupName n st.loadedModules = some info)
    (hh : info.libraryHandle = some info.path)
    (hsf : (env info.path).shutdownFault = none)
    (hdf : (env info.path).destroyFault = none)
    (hclose : (env info.path).closeOk = true)
    (hopen : (env info.path).openOk = true)
    (hcreate : (env info.path).hasCreate = true)
    (houtcome : (env info.path).createOutcome = .ret (some m))
    (hinit : (env info.path).initFault = none)
    (hmn : m.name = n) :
    (reloadModule env st n).1.status = .Success ∧
    ((reloadModule env st n).1.module.map ModuleInfo.name) = some n ∧
    countEvType .Reloaded (producedEvents st (reloadModule env st n).2) = 1 ∧
    countEvType .Unloaded (producedEvents st (reloadModule env st n).2) = 0 ∧
    countEvType .Loaded (producedEvents st (reloadModule env st n).2) = 1 := by
  obtain ⟨hres, hreg⟩ :=
    internalUnload_success_parts env st n info info.path true hl hh hclose
  have hev := internalUnload_suppressed_events env st n info info.path hl hh hsf hdf hclose
  have hpath1 :
      findByPath info.path (internalUnloadModule env st n true).2.loadedModules = none := by
    rw [hreg]
    exact findByPath_eraseKey_of_lookup hu.2 hl
  have hname1 :
      lookupName m.name (internalUnloadModule env st n true).2.loadedModules = none := by
    rw [hreg, hmn]
    rw [lookupName_eq_none_iff]
    exact not_mem_keys_eraseKey hu.1
  have hload := loadModule_success env (internalUnloadModule env st n true).2 info.path m
    hpath1 hopen hcreate houtcome hinit hname1
  have hcond : (internalUnloadModule env st n true).1.status = .Success := by
    rw [hres]
  unfold reloadModule
  rw [hl]
  dsimp only
  rw [if_pos hcond, hload]
  dsimp only
  rw [if_pos rfl]
  refine ⟨rfl, by simp [hmn], ?_, ?_, ?_⟩ <;>
    simp [producedEvents, hev, countEvType, List.drop_left, List.filter_append]

/-- Witness for C4 at a concrete input. -/
theorem C4_witness :
    (lookupName "Echo" stEcho.loadedModules =
       some ⟨"Echo", "1.0.0", "/x/echo.so", some "/x/echo.so", some ⟨"Echo", "1.0.0"⟩⟩ ∧
     (Module.mk "Echo" "1.0.0").name = "Echo") ∧
    ((reloadModule envDefault stEcho "Echo").1.status = .Success ∧
     ((reloadModule envDefault stEcho "Echo").1.module.map ModuleInfo.name) =
       some "Echo" ∧
     countEvType .Reloaded
       (producedEvents stEcho (reloadModule envDefault stEcho "Echo").2) = 1 ∧
     countEvType .Unloaded
       (producedEvents stEcho (reloadModule envDefault stEcho "Echo").2) = 0 ∧
     countEvType .Loaded
       (producedEvents stEcho (reloadModule envDefault stEcho "Echo").2) = 1) :=
  ⟨⟨by decide, by decide⟩,
   C4_reload_identity envDefault stEcho "Echo"
     ⟨"Echo", "1.0.0", "/x/echo.so", some "/x/echo.so", some ⟨"Echo", "1.0.0"⟩⟩
     ⟨"Echo", "1.0.0"⟩ (by decide) (by decide) (by decide) (by decide) (by decide)
     (by decide) (by decide) (by decide) (by decide) (by decide) (by decide)⟩

/-- The per-name teardown loop never removes a descriptor whose library
close fails: its own unload keeps it, and the other names' unloads erase
only their own keys. -/
theorem teardownLoop_keeps_failed (env : Env) (names : List String) (n : String)
    (info : ModuleInfo) (hp : String)
    (hh : info.libraryHandle = some hp) (hc : (env hp).closeOk = false) :
    ∀ st : LoaderState, lookupName n st.loadedModules = some info →
      lookupName n (teardownLoop env names st).loadedModules = some info := by
  induction names with
  | nil =>
    intro st hl
    exact hl
  | cons mm rest ih =>
    intro st hl
    rw [teardownLoop]
    exact ih _ (internalUnload_keeps_failed env st mm true n info hp hl hh hc)

/-- C7 counterexample: a loaded module whose `dlclose` fails is
nevertheless gone from the Registry after teardown — the destructor ends
with `CppLoadedModules.clear()`, which discards every descriptor,
including one whose handle failed to close. -/
theorem C7_counterexample :
    (envCloseFail "/x/echo.so").closeOk = false ∧
    lookupName "Echo" stEcho.loadedModules =
      some ⟨"Echo", "1.0.0", "/x/echo.so", some "/x/echo.so", some ⟨"Echo", "1.0.0"⟩⟩ ∧
    (teardown envCloseFail stEcho).loadedModules = [] :=
  ⟨rfl, by decide, rfl⟩

/-- C7 (amended): teardown runs the suppressed-event internal unload on
every name; during that loop a descriptor whose library close fails is
never removed and is still present when the loop finishes, but the
destructor then clears the whole Registry, so after teardown no
descriptor — including one whose close failed — remains tracked. -/
theorem C7_teardown_clears_despite_close_failure (env : Env) (st : LoaderState)
    (n : String) (info : ModuleInfo) (hp : String)
    (hl : lookupName n st.loadedModules = some info)
    (hh : info.libraryHandle = some hp)
    (hc : (env hp).closeOk = false) :
    lookupName n
      (teardownLoop env (registryKeys st.loadedModules) st).loadedModules = some info ∧
    (teardown env st).loadedModules = [] :=
  ⟨teardownLoop_keeps_failed env (registryKeys st.loadedModules) n info hp hh hc st hl,
   rfl⟩

/-- Witness for the amended C7 at a concrete input. -/
theorem C7_witness :
    (lookupName "Echo" stEcho.loadedModules =
       some ⟨"Echo", "1.0.0", "/x/echo.so", some "/x/echo.so", some ⟨"Echo", "1.0.0"⟩⟩ ∧
     (envCloseFail "/x/echo.so").closeOk = false) ∧
    (lookupName "Echo"
       (teardownLoop envCloseFail (registryKeys stEcho.loadedModules)
         stEcho).loadedModules =
       some ⟨"Echo", "1.0.0", "/x/echo.so", some "/x/echo.so", some ⟨"Echo", "1.0.0"⟩⟩ ∧
     (teardown envCloseFail stEcho).loadedModules = []) :=
  ⟨⟨by decide, by decide⟩,
   C7_teardown_clears_despite_close_failure envCloseFail stEcho "Echo"
     ⟨"Echo", "1.0.0", "/x/echo.so", some "/x/echo.so", some ⟨"Echo", "1.0.0"⟩⟩
     "/x/echo.so" (by decide) (by decide) (by decide)⟩

/-- Witness for C10 at a concrete input. -/
theorem C10_witness :
    (lookupName "Echo" stEcho.loadedModules =
       some ⟨"Echo", "1.0.0", "/x/echo.so", some "/x/echo.so", some ⟨"Echo", "1.0.0"⟩⟩ ∧
     (unloadModule envDefault stEcho "Echo").1.status = .Success) ∧
    ((unloadModule envDefault stEcho "Echo").1.module =
       some ⟨"Echo", "1.0.0", "/x/echo.so", none, none⟩ ∧
     (unloadModule envDefault stEcho "Echo").2.events.getLast? =
       some ⟨.Unloaded, ⟨"Echo", "1.0.0", "/x/echo.so", none, none⟩,
         "Module unloaded successfully."⟩) :=
  ⟨⟨by decide, by decide⟩,
   C10_unload_snapshot envDefault stEcho "Echo"
     ⟨"Echo", "1.0.0", "/x/echo.so", some "/x/echo.so", some ⟨"Echo", "1.0.0"⟩⟩
     (by decide) (by decide)⟩
